import Mathlib

/-!
Verification of the goodroutine package: a shallow embedding of the
threshold-based health checker (healthchecker.go, mutex variant with
fast-start and last-error tracking) and of the interval scheduler
(intervalroutine.go, timer-based variant), together with theorems about
their state-transition behaviour.

Errors are modelled abstractly by a type parameter `E`: a run outcome is
`Option E`, where `none` is a successful run and `some e` is a run that
returned the error `e`. Durations are modelled as `Int` nanoseconds.
-/

namespace Goodroutine

/-- State of a `HealthChecker` (healthchecker.go). The Go struct fields
`runner` (the wrapped unit of work) and the callback fields `OnUp` and
`OnDown` are not data of the state machine: the runner outcome is an input
of each step, and callback invocations are returned as events. -/
structure HealthChecker (E : Type) where
  /-- `state` field: an int32 that is 0 (down) or 1 (up); modelled as `Bool`. -/
  state : Bool
  /-- consecutive non-error runs counter (`ups`). -/
  ups : Int
  /-- consecutive error runs counter (`downs`). -/
  downs : Int
  thresholdUp : Int
  thresholdDown : Int
  lastErr : Option E
  firstRun : Bool
  /-- `FastStart` public flag; set to true by the constructor. -/
  FastStart : Bool
  deriving Repr, DecidableEq

/-- A callback invocation performed by the health checker: `OnUp` or
`OnDown`, with the argument values the Go code passes (evaluated at the
point of the `defer` statement). -/
inductive HCEvent (E : Type) where
  | onUp (numUps numDowns : Int)
  | onDown (numUps numDowns : Int) (lastErr : Option E)
  deriving Repr, DecidableEq

/-- `HealthChecker.Reset`: sets the state, zeroes both counters, re-arms
`firstRun`, and fires the callback for the chosen direction with the
pre-reset counter values (defer arguments are evaluated before the
fields are zeroed). Note that `lastErr` is left unchanged. -/
def HealthChecker.Reset {E : Type} (hrt : HealthChecker E) (newState : Bool) :
    HealthChecker E × HCEvent E :=
  let ev := if newState then HCEvent.onUp hrt.ups hrt.downs
            else HCEvent.onDown hrt.ups hrt.downs hrt.lastErr
  ({ hrt with state := newState, ups := 0, downs := 0, firstRun := true }, ev)

/-- `NewHealthChecker`: clamps both thresholds up to 1, builds the struct
with `FastStart := true` and zero-valued remaining fields, then calls
`Reset defaultState`. -/
def NewHealthChecker (E : Type) (defaultState : Bool)
    (thresholdUp thresholdDown : Int) : HealthChecker E :=
  let tD := if thresholdDown < 1 then 1 else thresholdDown
  let tU := if thresholdUp < 1 then 1 else thresholdUp
  (HealthChecker.Reset
    { state := false, ups := 0, downs := 0, thresholdUp := tU,
      thresholdDown := tD, lastErr := none, firstRun := false,
      FastStart := true } defaultState).1

/-- `HealthChecker.IntervalRun`: one observation. The wrapped runner's
outcome is the input `err` (`none` for success). Returns the new state,
the list of callback invocations (at most one), and the returned error.
Transcribed branch for branch from the Go source; the callback argument
values are those at the point of the `defer` statement. -/
def HealthChecker.IntervalRun {E : Type} (hrt : HealthChecker E) (err : Option E) :
    HealthChecker E × List (HCEvent E) × Option E :=
  let faststart := hrt.FastStart && hrt.firstRun
  let wasUp := hrt.state
  match err with
  | some e =>
    let downs := hrt.downs + 1
    if !wasUp then
      -- clear any progress
      ({ hrt with downs := downs, ups := 0, lastErr := some e, firstRun := false },
       [], some e)
    else if faststart || downs ≥ hrt.thresholdDown then
      -- going down; OnDown receives the not-yet-cleared ups
      ({ hrt with state := false, downs := downs, ups := 0, lastErr := some e,
                  firstRun := false },
       [HCEvent.onDown hrt.ups downs (some e)], some e)
    else
      ({ hrt with downs := downs, lastErr := some e, firstRun := false },
       [], some e)
  | none =>
    let ups := hrt.ups + 1
    if wasUp then
      -- clear any progress
      ({ hrt with ups := ups, downs := 0, firstRun := false }, [], none)
    else if faststart || ups ≥ hrt.thresholdUp then
      -- going up; OnUp receives the not-yet-cleared downs
      ({ hrt with state := true, ups := ups, downs := 0, firstRun := false },
       [HCEvent.onUp ups hrt.downs], none)
    else
      ({ hrt with ups := ups, firstRun := false }, [], none)

/-- `HealthChecker.IsUp`: the current boolean state. -/
def HealthChecker.IsUp {E : Type} (hrt : HealthChecker E) : Bool :=
  hrt.state

/-- `HealthChecker.LastErr`: the last recorded error. -/
def HealthChecker.LastErr {E : Type} (hrt : HealthChecker E) : Option E :=
  hrt.lastErr

/-- Run a sequence of observations, keeping only the final state. -/
def runSeq {E : Type} (hrt : HealthChecker E) (obs : List (Option E)) :
    HealthChecker E :=
  obs.foldl (fun h o => (h.IntervalRun o).1) hrt

/-- Run a sequence of observations, collecting the callback events fired
along the way, in order. -/
def runTrace {E : Type} (hrt : HealthChecker E) (obs : List (Option E)) :
    HealthChecker E × List (HCEvent E) :=
  obs.foldl (fun acc o =>
    let r := acc.1.IntervalRun o
    (r.1, acc.2 ++ r.2.1)) (hrt, [])

/-- State of an `IntervalRoutine` (intervalroutine.go). The unit of work
`f`, the channels and the `sync.Once` fields are not data of the loop-step
state machine: the outcome of `f` and the readiness of the channels are
inputs of each step. `onPanicRegistered` records whether the `OnPanic`
callback field is non-nil. -/
structure IntervalRoutine where
  runInterval : Int
  retryInterval : Int
  currentInterval : Int
  NoRecover : Bool
  onPanicRegistered : Bool
  deriving Repr, DecidableEq

/-- Which case of the three-way select in `runSafe` fires: the interval
timer, the force (trigger) channel, or the closed done channel. -/
inductive WakeBranch where
  | timer
  | force
  | done
  deriving Repr, DecidableEq

/-- Outcome of one invocation of the unit of work `f`: normal return with
no error, normal return with an error, or a crash raised during the
invocation (a Go panic carrying payload `p`). -/
inductive FOutcome (E P : Type) where
  | ok
  | err (e : E)
  | crash (p : P)
  deriving Repr, DecidableEq

/-- Where a recovered crash payload was reported: to the registered
`OnPanic` observer, or printed to the diagnostic sink. -/
inductive PanicReport (P : Type) where
  | toObserver (p : P)
  | toSink (p : P)
  deriving Repr, DecidableEq

/-- Result of one `runSafe` loop step. `again` is the boolean `runSafe`
returns to the loop in `Start` (the loop breaks when it is false);
`invoked` records whether `f` was invoked; `report` is the recovered
crash report, if any; `crashed` is true when a panic propagates out of
`runSafe` (only possible with `NoRecover`); `state` is the updated
routine. -/
structure RunSafeResult (E P : Type) where
  again : Bool
  invoked : Bool
  report : Option (PanicReport P)
  crashed : Bool
  state : IntervalRoutine
  deriving Repr, DecidableEq

/-- `IntervalRoutine.runSafe`: one loop step, given which select branch
fires (`br`), whether the done channel is closed (`stopped`, i.e. `Stop`
has been signaled), and the outcome of `f` if invoked. The timer and
force branches first re-check the done channel with a nested
select-with-default, which deterministically takes the done case when the
channel is closed; only then is `f` invoked. After a normal return of
`f`, the next interval is the retry interval when `f` errored and a
retry interval is configured, otherwise the run interval. When `f`
panics and recovery is on, the deferred recover reports the payload and
`runSafe` returns the zero value of its unnamed bool result, and the
interval update is skipped. -/
def IntervalRoutine.runSafe {E P : Type} (rrt : IntervalRoutine)
    (stopped : Bool) (br : WakeBranch) (out : FOutcome E P) :
    RunSafeResult E P :=
  match br with
  | .done =>
    { again := false, invoked := false, report := none, crashed := false,
      state := rrt }
  | .timer | .force =>
    if stopped then
      { again := false, invoked := false, report := none, crashed := false,
        state := rrt }
    else
      match out with
      | .crash p =>
        if rrt.NoRecover then
          { again := false, invoked := true, report := none, crashed := true,
            state := rrt }
        else
          { again := false, invoked := true,
            report := some (if rrt.onPanicRegistered then PanicReport.toObserver p
                            else PanicReport.toSink p),
            crashed := false, state := rrt }
      | .ok =>
        { again := true, invoked := true, report := none, crashed := false,
          state := { rrt with currentInterval := rrt.runInterval } }
      | .err _ =>
        { again := true, invoked := true, report := none, crashed := false,
          state := { rrt with currentInterval :=
            if rrt.retryInterval > 0 then rrt.retryInterval
            else rrt.runInterval } }

/-- Modelled from the spec: the interval-selection step of the later
scheduler variant with exponential retry backoff, whose source file is
not in the snapshot (only its test, which uses the RetryBackoffDisabled
flag, is). After an invocation: on failure with a configured retry
interval, if backoff is enabled and the last interval used was already a
retry (strictly between zero and the run interval) the retry interval
doubles, capped at just under the run interval; otherwise the base retry
interval is used; on success, or with no retry interval configured, the
next wait reverts to the run interval. -/
def nextInterval (runInterval retryInterval currentInterval : Int)
    (backoffDisabled failed : Bool) : Int :=
  if failed = true ∧ retryInterval > 0 then
    if backoffDisabled = false ∧ 0 < currentInterval ∧ currentInterval < runInterval then
      min (2 * currentInterval) (runInterval - 1)
    else retryInterval
  else runInterval

/-- Modelled from the spec: the retry-interval normalization performed by
the later variant of `NewIntervalRoutine`, whose source file is not in
the snapshot. A retry interval configured larger than the run interval is
not an error; it is silently normalized to zero, which disables retry. -/
def normRetryInterval (runInterval retryInterval : Int) : Int :=
  if retryInterval > runInterval then 0 else retryInterval

/-- The current interval after `n` consecutive failing invocations,
starting from a state whose last wait was a normal run-interval wait
(current interval = run interval), with base retry interval `B`. -/
def retryCurrent (runInterval retryInterval : Int) (backoffDisabled : Bool) :
    Nat → Int
  | 0 => runInterval
  | n + 1 =>
    nextInterval runInterval retryInterval
      (retryCurrent runInterval retryInterval backoffDisabled n)
      backoffDisabled true

/-! ## Helper lemmas about single observations and observation sequences -/
theorem runSeq_cons {E : Type} (hc : HealthChecker E) (o : Option E)
    (l : List (Option E)) :
    runSeq hc (o :: l) = runSeq ((hc.IntervalRun o).1) l := rfl

theorem runSeq_append {E : Type} (hc : HealthChecker E)
    (l1 l2 : List (Option E)) :
    runSeq hc (l1 ++ l2) = runSeq (runSeq hc l1) l2 := by
  simp [runSeq, List.foldl_append]

/-- A successful observation while down, with fast-start off and the up
counter strictly below the threshold after incrementing, only increments
the up counter. -/
theorem step_none_below {E : Type} (hc : HealthChecker E)
    (h1 : hc.state = false) (h2 : hc.FastStart = false)
    (h3 : hc.ups + 1 < hc.thresholdUp) :
    (hc.IntervalRun none).1 = { hc with ups := hc.ups + 1, firstRun := false } := by
  have hd : decide (hc.ups + 1 ≥ hc.thresholdUp) = false := by
    simp only [decide_eq_false_iff_not, not_le]
    exact h3
  simp [HealthChecker.IntervalRun, h1, h2, hd]

/-- A successful observation while down that brings the up counter to the
threshold flips the state to up. -/
theorem step_none_reach {E : Type} (hc : HealthChecker E)
    (h1 : hc.state = false) (h3 : hc.thresholdUp ≤ hc.ups + 1) :
    (hc.IntervalRun none).1 =
      { hc with state := true, ups := hc.ups + 1, downs := 0, firstRun := false } := by
  have hd : decide (hc.ups + 1 ≥ hc.thresholdUp) = true := by
    simp only [decide_eq_true_eq, ge_iff_le]
    exact h3
  simp [HealthChecker.IntervalRun, h1, hd]

/-- A failing observation while up, with fast-start off and the down
counter strictly below the threshold after incrementing, only increments
the down counter and records the error. -/
theorem step_some_below {E : Type} (hc : HealthChecker E) (e : E)
    (h1 : hc.state = true) (h2 : hc.FastStart = false)
    (h3 : hc.downs + 1 < hc.thresholdDown) :
    (hc.IntervalRun (some e)).1 =
      { hc with downs := hc.downs + 1, lastErr := some e, firstRun := false } := by
  have hd : decide (hc.downs + 1 ≥ hc.thresholdDown) = false := by
    simp only [decide_eq_false_iff_not, not_le]
    exact h3
  simp [HealthChecker.IntervalRun, h1, h2, hd]

/-- A failing observation while up that brings the down counter to the
threshold flips the state to down. -/
theorem step_some_reach {E : Type} (hc : HealthChecker E) (e : E)
    (h1 : hc.state = true) (h3 : hc.thresholdDown ≤ hc.downs + 1) :
    (hc.IntervalRun (some e)).1 =
      { hc with state := false, downs := hc.downs + 1, ups := 0,
                lastErr := some e, firstRun := false } := by
  have hd : decide (hc.downs + 1 ≥ hc.thresholdDown) = true := by
    simp only [decide_eq_true_eq, ge_iff_le]
    exact h3
  simp [HealthChecker.IntervalRun, h1, hd]

/-- Invariant along a run of successes from a down state with fast-start
off: as long as the up counter stays below the threshold, the state stays
down and the counter advances by one per observation; thresholds and the
fast-start flag are unchanged. -/
theorem runSeq_none_inv {E : Type} (n : Nat) (hc : HealthChecker E)
    (h1 : hc.state = false) (h2 : hc.FastStart = false)
    (h3 : hc.ups + n < hc.thresholdUp) :
    (runSeq hc (List.replicate n none)).state = false ∧
    (runSeq hc (List.replicate n none)).ups = hc.ups + n ∧
    (runSeq hc (List.replicate n none)).FastStart = false ∧
    (runSeq hc (List.replicate n none)).thresholdUp = hc.thresholdUp ∧
    (runSeq hc (List.replicate n none)).thresholdDown = hc.thresholdDown := by
  induction n generalizing hc with
  | zero => simp [runSeq, h1, h2]
  | succ n ih =>
    rw [List.replicate_succ, runSeq_cons,
      step_none_below hc h1 h2 (by push_cast at h3 ⊢; omega)]
    have h := ih { hc with ups := hc.ups + 1, firstRun := false }
      (by simp [h1]) (by simp [h2]) (by simp only; push_cast at h3 ⊢; omega)
    simp only at h
    refine ⟨h.1, ?_, h.2.2.1, h.2.2.2.1, h.2.2.2.2⟩
    rw [h.2.1]
    push_cast
    ring

/-- Invariant along a run of failures from an up state with fast-start
off: as long as the down counter stays below the threshold, the state
stays up and the counter advances by one per observation. -/
theorem runSeq_some_inv {E : Type} (e : E) (n : Nat) (hc : HealthChecker E)
    (h1 : hc.state = true) (h2 : hc.FastStart = false)
    (h3 : hc.downs + n < hc.thresholdDown) :
    (runSeq hc (List.replicate n (some e))).state = true ∧
    (runSeq hc (List.replicate n (some e))).downs = hc.downs + n ∧
    (runSeq hc (List.replicate n (some e))).FastStart = false ∧
    (runSeq hc (List.replicate n (some e))).thresholdUp = hc.thresholdUp ∧
    (runSeq hc (List.replicate n (some e))).thresholdDown = hc.thresholdDown := by
  induction n generalizing hc with
  | zero => simp [runSeq, h1, h2]
  | succ n ih =>
    rw [List.replicate_succ, runSeq_cons,
      step_some_below hc e h1 h2 (by push_cast at h3 ⊢; omega)]
    have h := ih { hc with downs := hc.downs + 1, lastErr := some e, firstRun := false }
      (by simp [h1]) (by simp [h2]) (by simp only; push_cast at h3 ⊢; omega)
    simp only at h
    refine ⟨h.1, ?_, h.2.2.1, h.2.2.2.1, h.2.2.2.2⟩
    rw [h.2.1]
    push_cast
    ring

/-- Fields of a freshly constructed checker when the thresholds need no
clamping. -/
theorem newHC_fields (E : Type) (d : Bool) (U D : Int)
    (hU : 1 ≤ U) (hD : 1 ≤ D) :
    NewHealthChecker E d U D =
      { state := d, ups := 0, downs := 0, thresholdUp := U, thresholdDown := D,
        lastErr := none, firstRun := true, FastStart := true } := by
  unfold NewHealthChecker HealthChecker.Reset
  simp only
  rw [if_neg (by omega : ¬ D < 1), if_neg (by omega : ¬ U < 1)]

/-- C1: with clamped thresholds U, D at least 1 and fast-start disabled,
a freshly constructed down checker stays down under fewer than U
consecutive successes and flips up at exactly U; a freshly constructed up
checker stays up under fewer than D consecutive failures and flips down
at exactly D. -/
theorem c1_threshold_transitions (E : Type) (e : E) (U D : Nat)
    (hU : 1 ≤ U) (hD : 1 ≤ D) :
    ((∀ n : Nat, n < U →
        (runSeq { NewHealthChecker E false (U : Int) (D : Int) with FastStart := false }
          (List.replicate n none)).state = false) ∧
      (runSeq { NewHealthChecker E false (U : Int) (D : Int) with FastStart := false }
        (List.replicate U none)).state = true) ∧
    ((∀ n : Nat, n < D →
        (runSeq { NewHealthChecker E true (U : Int) (D : Int) with FastStart := false }
          (List.replicate n (some e))).state = true) ∧
      (runSeq { NewHealthChecker E true (U : Int) (D : Int) with FastStart := false }
        (List.replicate D (some e))).state = false) := by
  have hU1 : (1 : Int) ≤ (U : Int) := by exact_mod_cast hU
  have hD1 : (1 : Int) ≤ (D : Int) := by exact_mod_cast hD
  rw [newHC_fields E false (U : Int) (D : Int) hU1 hD1,
      newHC_fields E true (U : Int) (D : Int) hU1 hD1]
  simp only
  refine ⟨⟨?_, ?_⟩, ?_, ?_⟩
  · intro n hn
    exact (runSeq_none_inv n _ rfl rfl (by simp only; omega)).1
  · obtain ⟨m, rfl⟩ : ∃ m, U = m + 1 := ⟨U - 1, by omega⟩
    rw [List.replicate_succ', runSeq_append]
    have hinv := runSeq_none_inv m
      ({ state := false, ups := 0, downs := 0, thresholdUp := ((m + 1 : Nat) : Int),
         thresholdDown := (D : Int), lastErr := none, firstRun := true,
         FastStart := false } : HealthChecker E)
      rfl rfl (by simp only; push_cast; omega)
    have hreach := step_none_reach _ hinv.1
      (by rw [hinv.2.1, hinv.2.2.2.1]; simp only; push_cast; omega)
    rw [show ∀ (s : HealthChecker E), runSeq s [none] = (s.IntervalRun none).1
          from fun s => rfl, hreach]
  · intro n hn
    exact (runSeq_some_inv e n _ rfl rfl (by simp only; omega)).1
  · obtain ⟨m, rfl⟩ : ∃ m, D = m + 1 := ⟨D - 1, by omega⟩
    rw [List.replicate_succ', runSeq_append]
    have hinv := runSeq_some_inv e m
      ({ state := true, ups := 0, downs := 0, thresholdUp := (U : Int),
         thresholdDown := ((m + 1 : Nat) : Int), lastErr := none, firstRun := true,
         FastStart := false } : HealthChecker E)
      rfl rfl (by simp only; push_cast; omega)
    have hreach := step_some_reach _ e hinv.1
      (by rw [hinv.2.1, hinv.2.2.2.2]; simp only; push_cast; omega)
    rw [show ∀ (s : HealthChecker E), runSeq s [some e] = (s.IntervalRun (some e)).1
          from fun s => rfl, hreach]


/-- C1 witness: the theorem instantiated at U = 2, D = 2 with natural
number errors. -/
theorem c1_threshold_transitions_witness :
    1 ≤ 2 ∧
    (runSeq { NewHealthChecker Nat false (2 : Int) (2 : Int) with FastStart := false }
      (List.replicate 2 none)).state = true :=
  ⟨by decide, ((c1_threshold_transitions Nat 0 2 2 (by decide) (by decide)).1).2⟩

/-- C4: once Stop has been signaled (the done channel is closed), a loop
step never invokes the unit of work, whichever select branch fires and
whatever the outcome of the unit of work would have been, because the
loop re-checks the stop signal before invoking; the step also tells the
loop to exit. -/
theorem c4_no_invocation_after_stop (E P : Type) (rrt : IntervalRoutine)
    (br : WakeBranch) (out : FOutcome E P) :
    (rrt.runSafe true br out).invoked = false ∧
    (rrt.runSafe true br out).again = false := by
  cases br <;> simp [IntervalRoutine.runSafe]

/-- C3: evaluation of a loop step at a crashing invocation with recovery
enabled. With an OnPanic observer registered (and likewise with none,
where the report goes to the diagnostic sink), the crash is recovered --
it does not propagate -- and is reported; but the step returns false, the
zero value of the unnamed bool result of runSafe, so the loop in Start
breaks and scheduling stops, and the interval update is skipped. -/
theorem c3_recovered_crash_terminates_loop :
    ((IntervalRoutine.runSafe (E := Unit) (P := Nat)
        { runInterval := 300, retryInterval := 5, currentInterval := 300,
          NoRecover := false, onPanicRegistered := true }
        false WakeBranch.timer (FOutcome.crash 7)).crashed = false ∧
      (IntervalRoutine.runSafe (E := Unit) (P := Nat)
        { runInterval := 300, retryInterval := 5, currentInterval := 300,
          NoRecover := false, onPanicRegistered := true }
        false WakeBranch.timer (FOutcome.crash 7)).report =
          some (PanicReport.toObserver 7) ∧
      (IntervalRoutine.runSafe (E := Unit) (P := Nat)
        { runInterval := 300, retryInterval := 5, currentInterval := 300,
          NoRecover := false, onPanicRegistered := true }
        false WakeBranch.timer (FOutcome.crash 7)).invoked = true ∧
      (IntervalRoutine.runSafe (E := Unit) (P := Nat)
        { runInterval := 300, retryInterval := 5, currentInterval := 300,
          NoRecover := false, onPanicRegistered := true }
        false WakeBranch.timer (FOutcome.crash 7)).again = false ∧
      (IntervalRoutine.runSafe (E := Unit) (P := Nat)
        { runInterval := 300, retryInterval := 5, currentInterval := 300,
          NoRecover := false, onPanicRegistered := true }
        false WakeBranch.timer (FOutcome.crash 7)).state.currentInterval = 300) ∧
    (IntervalRoutine.runSafe (E := Unit) (P := Nat)
        { runInterval := 300, retryInterval := 5, currentInterval := 300,
          NoRecover := false, onPanicRegistered := false }
        false WakeBranch.force (FOutcome.crash 7)).report =
      some (PanicReport.toSink 7) := by
  decide

/-- C5: with fast-start enabled, the first observation after construction
or after Reset sets the state to the outcome of that observation (up on
success, down on failure), for any threshold values, and clears the
first-run flag. -/
theorem c5_faststart_first_observation (E : Type) (d b : Bool) (U D : Int)
    (hc : HealthChecker E) (err : Option E) (hfs : hc.FastStart = true) :
    (((NewHealthChecker E d U D).IntervalRun err).1).state = err.isNone ∧
    (((NewHealthChecker E d U D).IntervalRun err).1).firstRun = false ∧
    ((((hc.Reset b).1).IntervalRun err).1).state = err.isNone ∧
    ((((hc.Reset b).1).IntervalRun err).1).firstRun = false := by
  cases err <;> cases d <;> cases b <;>
    simp [NewHealthChecker, HealthChecker.Reset, HealthChecker.IntervalRun, hfs]

/-- C5 witness: the theorem applied to a concrete freshly constructed
checker (whose FastStart flag is true) and a failing first observation
after a Reset to up. -/
theorem c5_faststart_first_observation_witness :
    (NewHealthChecker Nat false 3 5).FastStart = true ∧
    (((((NewHealthChecker Nat false 3 5).Reset true).1).IntervalRun (some 2)).1).state = false := by
  refine ⟨by decide, ?_⟩
  have h := c5_faststart_first_observation Nat false true 3 5
    (NewHealthChecker Nat false 3 5) (some 2) (by decide)
  simpa using h.2.2.1

/-- C6: an observation matching the current state resets the
opposite-direction counter without changing the state, and an observation
that flips the state resets the counter that is opposite after the flip. -/
theorem c6_counter_reset_law (E : Type) (hc : HealthChecker E) (err : Option E) :
    ((hc.state = true ∧ err = none) →
      (hc.IntervalRun err).1.downs = 0 ∧ (hc.IntervalRun err).1.state = true) ∧
    ((hc.state = false ∧ err.isSome) →
      (hc.IntervalRun err).1.ups = 0 ∧ (hc.IntervalRun err).1.state = false) ∧
    ((hc.state = false ∧ (hc.IntervalRun err).1.state = true) →
      (hc.IntervalRun err).1.downs = 0) ∧
    ((hc.state = true ∧ (hc.IntervalRun err).1.state = false) →
      (hc.IntervalRun err).1.ups = 0) := by
  cases err <;> cases hst : hc.state <;>
    simp [HealthChecker.IntervalRun, hst] <;> split <;> simp

/-- C6 witness: the matching-observation case at a concrete up checker
observing a success. -/
theorem c6_counter_reset_law_witness :
    ((NewHealthChecker Nat true 3 5).IntervalRun none).1.downs = 0 ∧
    ((NewHealthChecker Nat true 3 5).IntervalRun none).1.state = true :=
  (c6_counter_reset_law Nat (NewHealthChecker Nat true 3 5) none).1 ⟨by decide, rfl⟩

/-- C7 counterexample: in the scenario with thresholds up 3 and down 5,
initial state down, fast-start off, the trace of callbacks is not
onUp with counts 3 0 followed by onDown with counts 0 5: the claim that
the down-callback receives counts 0 5 is false (it receives 3 5). -/
theorem c7_scenario_counterexample :
    (runTrace ({ NewHealthChecker Nat false 3 5 with FastStart := false })
        [none, none, none, some 1, some 1, some 1, some 1, some 1]).2 ≠
      [HCEvent.onUp 3 0, HCEvent.onDown 0 5 (some 1)] := by
  decide

/-- C7 amended: in the scenario with thresholds up 3 and down 5, initial
state down, fast-start off: after 2 successes the state is still down;
the 3rd success flips the state up and the up-callback fires with counts
3 0; then 4 failures leave the state up, and the 5th failure flips the
state down with the down-callback receiving counts 3 5 (the success
count accumulated while up is passed before being cleared) and the
recorded last error. -/
theorem c7_scenario_amended :
    (runTrace ({ NewHealthChecker Nat false 3 5 with FastStart := false })
      [none, none]).1.state = false ∧
    (runTrace ({ NewHealthChecker Nat false 3 5 with FastStart := false })
      [none, none, none]).1.state = true ∧
    (runTrace ({ NewHealthChecker Nat false 3 5 with FastStart := false })
      [none, none, none]).2 = [HCEvent.onUp 3 0] ∧
    (runTrace ({ NewHealthChecker Nat false 3 5 with FastStart := false })
      [none, none, none, some 1, some 1, some 1, some 1]).1.state = true ∧
    (runTrace ({ NewHealthChecker Nat false 3 5 with FastStart := false })
      [none, none, none, some 1, some 1, some 1, some 1, some 1]).1.state = false ∧
    (runTrace ({ NewHealthChecker Nat false 3 5 with FastStart := false })
      [none, none, none, some 1, some 1, some 1, some 1, some 1]).2 =
        [HCEvent.onUp 3 0, HCEvent.onDown 3 5 (some 1)] ∧
    (runTrace ({ NewHealthChecker Nat false 3 5 with FastStart := false })
      [none, none, none, some 1, some 1, some 1, some 1, some 1]).1.LastErr = some 1 := by
  decide

/-- C8 counterexample: after one failing observation recording error 7
and a subsequent Reset, LastErr still returns the old error instead of
none, so Reset does not clear the visible last error. -/
theorem c8_lasterr_counterexample :
    (((((NewHealthChecker Nat true 1 1).IntervalRun (some 7)).1).Reset true).1).LastErr ≠
      none := by
  decide

/-- C8 amended: LastErr returns the error recorded by the most recent
failing observation, and none if no observation has failed since
construction; a successful observation and Reset both leave the recorded
last error unchanged (Reset does not clear it). -/
theorem c8_lasterr_amended (E : Type) (d b : Bool) (U D : Int)
    (hc : HealthChecker E) (e : E) :
    (NewHealthChecker E d U D).LastErr = none ∧
    ((hc.IntervalRun (some e)).1).LastErr = some e ∧
    ((hc.IntervalRun none).1).LastErr = hc.LastErr ∧
    (((hc.Reset b).1)).LastErr = hc.LastErr := by
  refine ⟨?_, ?_, ?_, ?_⟩
  · cases d <;> simp [NewHealthChecker, HealthChecker.Reset, HealthChecker.LastErr]
  · simp only [HealthChecker.IntervalRun, HealthChecker.LastErr]
    split
    · simp
    · split <;> simp
  · simp only [HealthChecker.IntervalRun, HealthChecker.LastErr]
    split
    · simp
    · split <;> simp
  · cases b <;> simp [HealthChecker.Reset, HealthChecker.LastErr]

/-- C10: the constructor enables fast-start by default, so for a freshly
constructed checker the first observation sets the state directly from
its outcome, and the configured thresholds play no role in that first
observation. -/
theorem c10_constructor_defaults_faststart (E : Type) (d : Bool)
    (U D Ua Da : Int) (err : Option E) :
    (NewHealthChecker E d U D).FastStart = true ∧
    (((NewHealthChecker E d U D).IntervalRun err).1).state = err.isNone ∧
    (((NewHealthChecker E d U D).IntervalRun err).1).state =
      (((NewHealthChecker E d Ua Da).IntervalRun err).1).state := by
  cases err <;> cases d <;>
    simp [NewHealthChecker, HealthChecker.Reset, HealthChecker.IntervalRun]

/-- On success the next wait always reverts to the run interval. -/
theorem nextInterval_success (R B current : Int) (bD : Bool) :
    nextInterval R B current bD false = R := by
  simp [nextInterval]

/-- With backoff disabled and a positive base retry interval, every retry
wait is exactly the base retry interval. -/
theorem nextInterval_noBackoff (R B current : Int) (hB : 0 < B) :
    nextInterval R B current true true = B := by
  simp [nextInterval, hB]

/-- Closed form of the retry-wait sequence with backoff enabled: starting
from a normal-interval wait, the k-th consecutive retry wait is two to
the k times the base retry interval, capped at one below the run
interval. -/
theorem retryCurrent_closed (R B : Int) (hB : 0 < B) (hBR : B < R) (k : Nat) :
    retryCurrent R B false (k + 1) = min ((2 : Int) ^ k * B) (R - 1) := by
  induction k with
  | zero =>
    show nextInterval R B R false true = _
    rw [nextInterval, if_pos ⟨rfl, hB⟩, if_neg (by omega)]
    simp only [pow_zero, one_mul]
    omega
  | succ n ih =>
    show nextInterval R B (retryCurrent R B false (n + 1)) false true = _
    rw [ih]
    have ha : 0 < (2 : Int) ^ n * B := by positivity
    rw [nextInterval, if_pos ⟨rfl, hB⟩, if_pos ⟨rfl, by omega, by omega⟩]
    have hpow : (2 : Int) ^ (n + 1) * B = 2 * ((2 : Int) ^ n * B) := by ring
    rw [hpow]
    omega

/-- C2: with run interval R, base retry interval B, 0 < B < R, and
backoff enabled, consecutive failing invocations produce retry waits
B, 2B, 4B, and so on, each capped at one below R; a successful invocation
resets the next wait to R; with backoff disabled every retry wait is
exactly B. -/
theorem c2_retry_backoff (R B : Int) (hB : 0 < B) (hBR : B < R) :
    (∀ k : Nat, retryCurrent R B false (k + 1) = min ((2 : Int) ^ k * B) (R - 1)) ∧
    (∀ (current : Int) (bD : Bool), nextInterval R B current bD false = R) ∧
    (∀ current : Int, nextInterval R B current true true = B) :=
  ⟨fun k => retryCurrent_closed R B hB hBR k,
   fun current bD => nextInterval_success R B current bD,
   fun current => nextInterval_noBackoff R B current hB⟩

/-- C2 witness: run interval 10 and base retry interval 3 give the retry
waits 3, 6, 9, 9 and a reset to 10 after a success. -/
theorem c2_retry_backoff_witness :
    (0 : Int) < 3 ∧ (3 : Int) < 10 ∧ retryCurrent 10 3 false 3 = 9 :=
  ⟨by decide, by decide,
   ((c2_retry_backoff 10 3 (by decide) (by decide)).1 2).trans (by decide)⟩

/-- C9: a retry interval configured strictly larger than the run interval
is normalized to zero at construction, disabling retry, so every wait
after a failing invocation is the run interval and never the configured
retry interval. -/
theorem c9_misconfigured_retry_disabled (R B : Int) (h : R < B) :
    normRetryInterval R B = 0 ∧
    (∀ (current : Int) (bD : Bool),
      nextInterval R (normRetryInterval R B) current bD true = R ∧
      nextInterval R (normRetryInterval R B) current bD true ≠ B) := by
  have h0 : normRetryInterval R B = 0 := by
    rw [normRetryInterval, if_pos h]
  refine ⟨h0, fun current bD => ?_⟩
  rw [h0, nextInterval]
  rw [if_neg (by omega)]
  exact ⟨rfl, by omega⟩

/-- C9 witness: the theorem applied at run interval 5 and configured
retry interval 7. -/
theorem c9_misconfigured_retry_disabled_witness :
    (5 : Int) < 7 ∧ nextInterval 5 (normRetryInterval 5 7) 3 false true = 5 :=
  ⟨by decide, ((c9_misconfigured_retry_disabled 5 7 (by decide)).2 3 false).1⟩

end Goodroutine
